import Mathlib

set_option linter.unusedVariables false

/- Shallow embedding of the arc-framework/platform-spike repository: the
   messaging fabric clients (arc_common/messaging/nats_client.py and
   pulsar_client.py), the vector memory store
   (services/arc-sherlock-brain/src/database.py and
   arc_common/models/conversation.py), and the reasoning workflow
   (services/arc-sherlock-brain/src/graph.py,
   services/arc-scarlett-voice/src/plugins/sherlock_llm.py). -/

/- ===================== Python dictionaries and JSON ===================== -/

/-- JSON scalar values as they occur in message envelopes and payloads. -/
inductive JVal where
  | str (s : String)
  | int (n : Int)
  | bool (b : Bool)
  | null
  deriving DecidableEq

/-- A Python dict with string keys, as a list of bindings in insertion order;
a well-formed dict binds each key at most once. -/
abbrev JDict := List (String × JVal)

/-- Python dict item assignment d[k] = v: overwrite the binding in place when
the key is present, append the binding otherwise. -/
def setKey {β : Type} : List (String × β) → String → β → List (String × β)
  | [], k, v => [(k, v)]
  | (k₁, v₁) :: rest, k, v =>
      if k₁ = k then (k, v) :: rest else (k₁, v₁) :: setKey rest k v

/-- Python dict.update(upd): assign every binding of upd into the base dict,
in order. -/
def dictUpdate {β : Type} (base upd : List (String × β)) : List (String × β) :=
  upd.foldl (fun acc p => setKey acc p.1 p.2) base

/-- Python dict lookup d[k]: the first binding of the key. -/
def lookupKey {β : Type} : List (String × β) → String → Option β
  | [], _ => none
  | (k₁, v) :: rest, k => if k₁ = k then some v else lookupKey rest k

/-- Composite of json.dumps and json.loads (Python stdlib, external to this
repository): on a string-keyed dict of JSON values it is the identity, so the
dict a subscriber decodes is the dict the publisher serialized. -/
def dumps_then_loads (d : JDict) : JDict := d

/-- Python str.startswith(p), computed on the character lists of the two
strings (equivalent to the byte-level prefix test of the source). -/
def charsLeadWith : List Char → List Char → Bool
  | _, [] => true
  | [], _ :: _ => false
  | c :: cs, p :: ps => (c = p) && charsLeadWith cs ps

/-- Python str.startswith as used by subject validation. -/
def str_starts_with (s p : String) : Bool := charsLeadWith s.data p.data

/- ===================== NATS ephemeral bus client ===================== -/

/-- Errors raised by NATSAgentClient: the ValueError of _validate_subject is
the InvalidSubject of the error taxonomy, ConnectionError is NotConnected. -/
inductive NatsError where
  | invalidSubject
  | notConnected
  deriving DecidableEq

/-- NATSAgentClient.VALID_SUBJECT_PREFIXES, verbatim from nats_client.py. -/
def VALID_SUBJECT_PREFIXES : List String :=
  ["agent.voice.", "agent.brain.", "agent.tts.", "agent.stt.",
   "system.health.", "system.service."]

/-- NATSAgentClient state: the constructor fields plus the _connected flag
that publish consults. -/
structure NATSAgentClient where
  servers : List String
  service_name : String
  max_reconnect_attempts : Nat
  connected : Bool

/-- NATSAgentClient._validate_subject: raises ValueError (InvalidSubject)
unless the subject starts with one of the valid prefixes. -/
def NATSAgentClient.validate_subject (subject : String) : Except NatsError Unit :=
  if VALID_SUBJECT_PREFIXES.any (fun p => str_starts_with subject p) then
    Except.ok ()
  else
    Except.error NatsError.invalidSubject

/-- Shared body of _create_message_envelope, line-identical in nats_client.py
and pulsar_client.py: build the metadata dict with timestamp, trace_id and
service, optionally set event_type, then merge the payload over it with
dict.update. The argument fresh_uuid stands for str(uuid4()) and now for
datetime.utcnow().isoformat(); `trace_id or str(uuid4())` and
`if event_type:` use Python truthiness, so an empty string acts like None. -/
def create_message_envelope_impl (service_name : String) (data : JDict)
    (trace_id event_type : Option String) (fresh_uuid now : String) : JDict :=
  let tid := match trace_id with
    | some t => if t = "" then fresh_uuid else t
    | none => fresh_uuid
  let envelope : JDict :=
    [("timestamp", JVal.str (now ++ "Z")),
     ("trace_id", JVal.str tid),
     ("service", JVal.str service_name)]
  let envelope := match event_type with
    | some e => if e = "" then envelope else setKey envelope "event_type" (JVal.str e)
    | none => envelope
  dictUpdate envelope data

/-- NATSAgentClient._create_message_envelope. -/
def NATSAgentClient.create_message_envelope (c : NATSAgentClient) (data : JDict)
    (trace_id event_type : Option String) (fresh_uuid now : String) : JDict :=
  create_message_envelope_impl c.service_name data trace_id event_type fresh_uuid now

/-- NATSAgentClient.publish: raise ConnectionError when not connected, run
_validate_subject, build the envelope, serialize it and hand it to
nc.publish. Except.ok env means the envelope env was serialized and handed to
the transport; Except.error means the call raised before anything was sent. -/
def NATSAgentClient.publish (c : NATSAgentClient) (subject : String)
    (data : JDict) (trace_id event_type : Option String)
    (fresh_uuid now : String) : Except NatsError JDict :=
  if c.connected = false then Except.error NatsError.notConnected
  else
    match NATSAgentClient.validate_subject subject with
    | Except.error e => Except.error e
    | Except.ok _ =>
        Except.ok (c.create_message_envelope data trace_id event_type fresh_uuid now)

/- ===================== Pulsar durable bus client ===================== -/

/-- Errors raised by PulsarAgentClient on the produce path. -/
inductive PulsarError where
  | notConnected
  deriving DecidableEq

/-- PulsarAgentClient state: constructor fields, the _connected flag, and the
topics for which a producer is cached in self.producers. -/
structure PulsarAgentClient where
  service_url : String
  service_name : String
  operation_timeout_seconds : Nat
  connected : Bool
  producer_topics : List String

/-- PulsarAgentClient._create_message_envelope (line-identical to the NATS
variant). -/
def PulsarAgentClient.create_message_envelope (c : PulsarAgentClient) (data : JDict)
    (trace_id event_type : Option String) (fresh_uuid now : String) : JDict :=
  create_message_envelope_impl c.service_name data trace_id event_type fresh_uuid now

/-- A message as handed to producer.send: the serialized envelope, the
partition key when one was passed, and the message properties. -/
structure ProducedMessage where
  envelope : JDict
  partition_key : Option String
  properties : JDict
  deriving DecidableEq

/-- PulsarAgentClient.produce: _get_producer raises ConnectionError when no
producer is cached for the topic and the client is not connected; otherwise
build the envelope, fill the message properties with trace_id, service and
event_type, and send with the partition key when message_key is truthy. -/
def PulsarAgentClient.produce (c : PulsarAgentClient) (topic : String)
    (data : JDict) (message_key trace_id event_type : Option String)
    (properties : Option JDict) (fresh_uuid now : String) :
    Except PulsarError ProducedMessage :=
  if ¬ topic ∈ c.producer_topics ∧ c.connected = false then
    Except.error PulsarError.notConnected
  else
    let envelope := c.create_message_envelope data trace_id event_type fresh_uuid now
    let msg_properties := properties.getD []
    let msg_properties := setKey msg_properties "trace_id"
      ((lookupKey envelope "trace_id").getD JVal.null)
    let msg_properties := setKey msg_properties "service" (JVal.str c.service_name)
    let msg_properties := match event_type with
      | some e => if e = "" then msg_properties
                  else setKey msg_properties "event_type" (JVal.str e)
      | none => msg_properties
    let partition_key := match message_key with
      | some k => if k = "" then none else some k
      | none => none
    Except.ok { envelope := envelope, partition_key := partition_key,
                properties := msg_properties }

/-- Topic namespace constant NAMESPACE_EVENTS of pulsar_client.py. -/
def PulsarAgentClient.NAMESPACE_EVENTS : String := "arc/events"

/-- PulsarAgentClient.produce_conversation_event: produce to
persistent://arc/events/conversations keyed by the conversation id. -/
def PulsarAgentClient.produce_conversation_event (c : PulsarAgentClient)
    (conversation_id event_type : String) (data : JDict)
    (trace_id : Option String) (fresh_uuid now : String) :
    Except PulsarError ProducedMessage :=
  c.produce ("persistent://" ++ PulsarAgentClient.NAMESPACE_EVENTS ++ "/conversations")
    data (some conversation_id) trace_id (some event_type) none fresh_uuid now

/-- A Python value as returned by a consume callback. -/
inductive PyValue where
  | pybool (b : Bool)
  | pynone
  | pystr (s : String)
  | pyint (n : Int)
  deriving DecidableEq

/-- Outcome of one callback invocation inside PulsarAgentClient.consume: the
callback either returns a value or raises an exception. -/
inductive HandlerOutcome where
  | returns (v : PyValue)
  | raises
  deriving DecidableEq

/-- Acknowledgement action taken by the consume loop on a message. -/
inductive AckResult where
  | ack
  | nack
  deriving DecidableEq

/-- One iteration of the consume loop body after consumer.receive, given the
decoded message: Except.error models a json.JSONDecodeError of the message
body, Except.ok the outcome of calling the callback on the decoded payload.
Mirrors the source: should_ack = callback(data, msg); negative_acknowledge
when should_ack is False (Python identity with the False singleton) or when
an exception was raised, acknowledge for every other return value. -/
def PulsarAgentClient.consume_step : Except Unit HandlerOutcome → AckResult
  | Except.error _ => AckResult.nack
  | Except.ok HandlerOutcome.raises => AckResult.nack
  | Except.ok (HandlerOutcome.returns v) =>
      if v = PyValue.pybool false then AckResult.nack else AckResult.ack

/- ===================== Brain memory store (database.py) ===================== -/

/-- Row of agents.conversations as declared by the Conversation model of
arc-sherlock-brain/src/database.py: autoincrement id, user_id, text,
embedding, created_at. Embedding components are modelled as integers — the
claims proved here depend only on the linear order of the scalar — and the
server timestamp as a tick count. -/
structure Conversation where
  id : Nat
  user_id : String
  text : String
  embedding : List Int
  created_at : Nat
  deriving DecidableEq

/-- Database state: the conversations table, the autoincrement counter, the
server clock, and the external SentenceTransformer embedding model as an
abstract function from text to vector. -/
structure Database where
  table : List Conversation
  next_id : Nat
  clock : Nat
  embedding_model : String → List Int

/-- Failure of the database session underlying a query (db.session rolls back
and re-raises). -/
inductive DbError where
  | queryFailed
  deriving DecidableEq

/-- save_conversation(db, user_id, text): encode the text with the embedding
model and insert a new row, returning its autoincrement id. The source
performs no uniqueness check beyond the autoincrement primary key and no
dimension check (the embedding never comes from the caller), so the insert is
unconditional. -/
def save_conversation (db : Database) (user_id text : String) : Database × Nat :=
  let embedding := db.embedding_model text
  let row : Conversation :=
    { id := db.next_id, user_id := user_id, text := text,
      embedding := embedding, created_at := db.clock }
  ({ db with table := db.table ++ [row], next_id := db.next_id + 1,
             clock := db.clock + 1 },
   db.next_id)

/-- Squared L2 distance of two vectors, componentwise. pgvector l2_distance
is the square root of this; the square root is strictly monotone on
nonnegative values, so ordering rows by the squared distance is exactly the
ordering by l2_distance that the source requests. -/
def l2_distance_sq : List Int → List Int → Int
  | [], ys => (ys.map (fun y => y * y)).sum
  | x :: xs, [] => x * x + l2_distance_sq xs []
  | x :: xs, y :: ys => (x - y) * (x - y) + l2_distance_sq xs ys

/-- get_context(db, user_id, query_text, top_k): encode the query, select
(id, text, distance) from the rows whose user_id equals the argument, ordered
by distance to the query ascending, limited to top_k. The ORDER BY is
modelled by insertion sort on the distance key; the reported score is the
squared distance (same ordering as the metric of the source). -/
def get_context (db : Database) (user_id query_text : String) (top_k : Nat) :
    List (Nat × String × Int) :=
  let query_embedding := db.embedding_model query_text
  let rows := db.table.filter (fun c => c.user_id = user_id)
  let sorted := rows.insertionSort (fun a b =>
    l2_distance_sq a.embedding query_embedding ≤ l2_distance_sq b.embedding query_embedding)
  (sorted.take top_k).map (fun c => (c.id, c.text, l2_distance_sq c.embedding query_embedding))

/- ===================== SDK conversation model ===================== -/

/-- Row of the SDK Conversation model (arc_common/models/conversation.py),
restricted to the columns retrieval touches. -/
structure SdkConversation where
  id : Nat
  user_id : String
  user_input : String
  agent_response : String
  embedding : List Int
  deriving DecidableEq

/-- find_similar_conversations(session, query_embedding, limit, user_id):
filter by user only when user_id is truthy (the source guard is
`if user_id:`, so both None and the empty string skip the filter), order by
pgvector cosine distance to the query ascending, take limit rows. The cosine
distance operator lives in the database, outside this repository, and is
passed in abstractly; it only serves as a sort key, which no claim below
depends on. -/
def find_similar_conversations
    (cosine_distance : List Int → List Int → Int)
    (table : List SdkConversation) (query_embedding : List Int)
    (limit : Nat) (user_id : Option String) : List SdkConversation :=
  let rows := match user_id with
    | some u => if u = "" then table else table.filter (fun c => c.user_id = u)
    | none => table
  let sorted := rows.insertionSort (fun a b =>
    cosine_distance a.embedding query_embedding ≤ cosine_distance b.embedding query_embedding)
  sorted.take limit

/- ===================== Reasoning workflow (graph.py) ===================== -/

/-- A langchain chat message: HumanMessage or AIMessage with its content. -/
inductive BaseMessage where
  | human (content : String)
  | ai (content : String)
  deriving DecidableEq

/-- The AgentState TypedDict of graph.py: messages — Annotated with
operator.add in the source, so the graph merges the messages a node returns
by concatenation onto the running channel value (see apply_node_update) —
followed by user_id, context and final_response, which are plain last-value
channels. The type has exactly these four fields; in particular there is no
reasoning_degraded field. -/
structure AgentState where
  messages : List BaseMessage
  user_id : String
  context : Option (List String)
  final_response : Option String
  deriving DecidableEq

/-- The fixed fallback reply literal, shared between
graph.generate_response_node and SherlockLLM.chat. -/
def fallback_reply : String :=
  "I apologize, but I\x27m having trouble processing your request right now."

/-- Failure of the LLM capability call llm_client.ainvoke. -/
inductive LlmError where
  | failure
  | timeout
  deriving DecidableEq

/-- retrieve_context_node: ctx_result is the outcome of
await get_context(db, user_id, latest_message, top_k=5). The source wraps
that call in no try/except, so a database error propagates out of the node;
on success the retrieved texts are attached to state.context. -/
def retrieve_context_node (state : AgentState)
    (ctx_result : Except DbError (List (Nat × String × Int))) :
    Except DbError AgentState :=
  match ctx_result with
  | Except.error e => Except.error e
  | Except.ok rs => Except.ok { state with context := some (rs.map (fun r => r.2.1)) }

/-- The context_str built inside generate_response_node for the prompt
(`if context` is Python truthiness on the list). -/
def context_str (context : List String) : String :=
  if context = [] then "No prior context available."
  else String.intercalate "\n" (context.map (fun c => "- " ++ c))

/-- generate_response_node: llm_result is the outcome of
await llm_client.ainvoke(formatted_prompt). On any exception the reply is the
fixed fallback string; the node sets final_response and appends an AIMessage
to messages. Nothing else of the state changes, and no failure marker of any
kind is written. -/
def generate_response_node (state : AgentState)
    (llm_result : Except LlmError String) : AgentState :=
  let response_text := match llm_result with
    | Except.ok r => r
    | Except.error _ => fallback_reply
  { state with
    final_response := some response_text,
    messages := state.messages ++ [BaseMessage.ai response_text] }

/-- Observable side effects of invoke_reasoning_graph, in program order:
calls to save_conversation, and durable-bus conversation events were any
produced (via PulsarAgentClient.produce_conversation_event). -/
inductive BrainAction where
  | saveConv (user_id text : String)
  | produceConvEvent (session_id event_type : String)
  deriving DecidableEq

/-- Whether an action is a durable-bus conversation-event publish. -/
def BrainAction.isConvEvent : BrainAction → Bool
  | BrainAction.saveConv _ _ => false
  | BrainAction.produceConvEvent _ _ => true

/-- LangGraph channel merge applied to the state a node returns: the
messages field is Annotated with operator.add, so the returned messages are
concatenated onto the current channel value; the remaining fields are
last-value channels, replaced by the returned value. Since both nodes return
full states built as updates of their input, the add reducer re-accumulates
the running messages on every step. -/
def apply_node_update (cur nst : AgentState) : AgentState :=
  { messages := cur.messages ++ nst.messages,
    user_id := nst.user_id,
    context := nst.context,
    final_response := nst.final_response }

/-- invoke_reasoning_graph(graph, db, user_id, message): build the initial
state, run retrieve_context then generate_response under the LangGraph
channel semantics — each node's returned state is merged into the current
one with apply_node_update — then read final_response, persist the user
message and then the response with save_conversation, and return the
response together with the final channel state and the effect trace of the
body. The body contains no Pulsar call, so the trace holds exactly the two
saves. An error raised by the retrieval stage is logged by the except branch
and re-raised to the caller. -/
def invoke_reasoning_graph
    (ctx_result : Except DbError (List (Nat × String × Int)))
    (llm_result : Except LlmError String)
    (user_id message : String) :
    Except DbError (String × AgentState × List BrainAction) :=
  let initial_state : AgentState :=
    { messages := [BaseMessage.human message], user_id := user_id,
      context := none, final_response := none }
  match retrieve_context_node initial_state ctx_result with
  | Except.error e => Except.error e
  | Except.ok ret =>
      let s₁ := apply_node_update initial_state ret
      let s₂ := apply_node_update s₁ (generate_response_node s₁ llm_result)
      let response := s₂.final_response.getD ""
      Except.ok (response, s₂,
        [BrainAction.saveConv user_id message, BrainAction.saveConv user_id response])

/- ===================== Voice plugin (sherlock_llm.py) ===================== -/

/-- Failure of SherlockLLM._call_brain: the NATS request timed out or the
reply envelope carried an error field. -/
inductive BrainError where
  | timeout
  | brainError (message : String)
  deriving DecidableEq

/-- SherlockLLM.chat: response_text = await self._call_brain(user_message);
on any exception the fixed fallback string is used instead. The LLMStream
wrapper returns the text unchanged, so only the reply text is modelled. -/
def SherlockLLM.chat (brain_result : Except BrainError String) : String :=
  match brain_result with
  | Except.ok t => t
  | Except.error _ => fallback_reply

/-- Decidable equality for Except values, used to evaluate concrete runs. -/
instance {ε α : Type} [DecidableEq ε] [DecidableEq α] : DecidableEq (Except ε α) :=
  fun a b =>
    match a, b with
    | Except.error e, Except.error f =>
        if h : e = f then Decidable.isTrue (by rw [h])
        else Decidable.isFalse (fun hh => h (by injection hh))
    | Except.error _, Except.ok _ => Decidable.isFalse (fun hh => Except.noConfusion hh)
    | Except.ok _, Except.error _ => Decidable.isFalse (fun hh => Except.noConfusion hh)
    | Except.ok x, Except.ok y =>
        if h : x = y then Decidable.isTrue (by rw [h])
        else Decidable.isFalse (fun hh => h (by injection hh))

/- ===================== Dictionary lemmas ===================== -/

theorem lookupKey_setKey_self {β : Type} (d : List (String × β)) (k : String) (v : β) :
    lookupKey (setKey d k v) k = some v := by
  induction d with
  | nil => simp [setKey, lookupKey]
  | cons p rest ih =>
      obtain ⟨k₁, v₁⟩ := p
      by_cases h : k₁ = k
      · subst h; simp [setKey, lookupKey]
      · simp [setKey, lookupKey, h, ih]

theorem lookupKey_setKey_ne {β : Type} (d : List (String × β)) {k k₀ : String}
    (h : k ≠ k₀) (v : β) : lookupKey (setKey d k v) k₀ = lookupKey d k₀ := by
  induction d with
  | nil => simp [setKey, lookupKey, h]
  | cons p rest ih =>
      obtain ⟨k₁, v₁⟩ := p
      by_cases h₁ : k₁ = k
      · subst h₁; simp [setKey, lookupKey, h]
      · simp [setKey, lookupKey, h₁, ih]

theorem lookupKey_dictUpdate_of_not_mem {β : Type} {upd : List (String × β)}
    (base : List (String × β)) {k : String} (h : k ∉ upd.map Prod.fst) :
    lookupKey (dictUpdate base upd) k = lookupKey base k := by
  induction upd generalizing base with
  | nil => rfl
  | cons p rest ih =>
      obtain ⟨k₁, v₁⟩ := p
      simp only [List.map_cons, List.mem_cons, not_or] at h
      have hne : k₁ ≠ k := fun hh => h.1 hh.symm
      calc lookupKey (dictUpdate base ((k₁, v₁) :: rest)) k
          = lookupKey (dictUpdate (setKey base k₁ v₁) rest) k := rfl
        _ = lookupKey (setKey base k₁ v₁) k := ih _ h.2
        _ = lookupKey base k := lookupKey_setKey_ne _ hne _

theorem lookupKey_dictUpdate_of_mem {β : Type} (base : List (String × β))
    {upd : List (String × β)} {k : String} {v : β}
    (hnd : (upd.map Prod.fst).Nodup) (hm : (k, v) ∈ upd) :
    lookupKey (dictUpdate base upd) k = some v := by
  induction upd generalizing base with
  | nil => cases hm
  | cons p rest ih =>
      obtain ⟨k₁, v₁⟩ := p
      simp only [List.map_cons, List.nodup_cons] at hnd
      rcases List.mem_cons.mp hm with heq | hmem
      · cases heq
        calc lookupKey (dictUpdate base ((k, v) :: rest)) k
            = lookupKey (dictUpdate (setKey base k v) rest) k := rfl
          _ = lookupKey (setKey base k v) k :=
              lookupKey_dictUpdate_of_not_mem _ hnd.1
          _ = some v := lookupKey_setKey_self _ _ _
      · exact ih (setKey base k₁ v₁) hnd.2 hmem

/- ===================== C3: LLM failure fallback ===================== -/

/-- C3. For every invocation of the generate_reply stage in which the LLM
call fails or times out, the stage returns with the reply text equal to the
fixed fallback string, and (amended) the resulting state carries no
reasoning_degraded marker: the result of a failing call is the very state a
successful call returning the fallback text would produce. The SherlockLLM
voice plugin degrades to the same fixed string. -/
theorem generate_response_llm_failure (s : AgentState) (e : LlmError) (b : BrainError) :
    generate_response_node s (Except.error e) = generate_response_node s (Except.ok fallback_reply) ∧
    (generate_response_node s (Except.error e)).final_response = some fallback_reply ∧
    SherlockLLM.chat (Except.error b) = fallback_reply :=
  ⟨rfl, rfl, rfl⟩

/-- C3, counterexample to the claim as stated: at a concrete failing input
the whole workflow state is definitionally the same record a successful call
returning the fallback text yields — four fields, none of them a
reasoning_degraded flag — so the result is not marked reasoning_degraded=true. -/
theorem generate_response_llm_failure_unmarked :
    generate_response_node ⟨[BaseMessage.human "hi"], "u1", some [], none⟩
        (Except.error LlmError.timeout)
      = generate_response_node ⟨[BaseMessage.human "hi"], "u1", some [], none⟩
          (Except.ok fallback_reply) ∧
    generate_response_node ⟨[BaseMessage.human "hi"], "u1", some [], none⟩
        (Except.error LlmError.timeout)
      = ⟨[BaseMessage.human "hi", BaseMessage.ai fallback_reply], "u1", some [],
         some fallback_reply⟩ :=
  ⟨rfl, rfl⟩

/- ===================== C4: save_conversation ===================== -/

/-- C4, amended: save_conversation(db, user_id, text) succeeds
unconditionally, appending exactly one new row with the next autoincrement id
and the internally computed embedding; the source has no
(user_id, agent_id, turn_index) key and takes no embedding argument, so the
call can fail with neither DuplicateTurn nor DimensionMismatch. -/
theorem save_conversation_unconditional (db : Database) (user_id text : String) :
    (save_conversation db user_id text).1.table
      = db.table ++ [{ id := db.next_id, user_id := user_id, text := text,
                       embedding := db.embedding_model text, created_at := db.clock }] ∧
    (save_conversation db user_id text).2 = db.next_id ∧
    (save_conversation db user_id text).1.next_id = db.next_id + 1 :=
  ⟨rfl, rfl, rfl⟩

/-- C4, counterexample to the claim as stated: saving the identical
(user_id, text) twice in a row does not fail with DuplicateTurn — both
inserts succeed, producing two rows with distinct ids. -/
theorem save_conversation_duplicate_succeeds :
    ((save_conversation
        (save_conversation ⟨[], 1, 0, fun _ => [0, 0]⟩ "u1" "hello").1
        "u1" "hello").1.table.map Conversation.id = [1, 2]) ∧
    ((save_conversation ⟨[], 1, 0, fun _ => [0, 0]⟩ "u1" "hello").2
      ≠ (save_conversation
          (save_conversation ⟨[], 1, 0, fun _ => [0, 0]⟩ "u1" "hello").1
          "u1" "hello").2) :=
  ⟨rfl, by decide⟩

/- ===================== C5: subject validation at publish time ===================== -/

/-- C5. On a connected client, a publish whose subject starts with none of
the allowed prefixes fails with InvalidSubject and nothing is handed to the
transport; and subject validation accepts exactly the subjects with an
allowed prefix, so an allowed subject is never rejected by validation. -/
theorem publish_rejects_invalid_subject
    (c : NATSAgentClient) (subject : String) (data : JDict)
    (trace_id event_type : Option String) (fresh_uuid now : String)
    (h : c.connected = true) :
    (VALID_SUBJECT_PREFIXES.any (fun p => str_starts_with subject p) = false →
      c.publish subject data trace_id event_type fresh_uuid now
        = Except.error NatsError.invalidSubject) ∧
    (NATSAgentClient.validate_subject subject = Except.ok () ↔
      VALID_SUBJECT_PREFIXES.any (fun p => str_starts_with subject p) = true) := by
  constructor
  · intro hbad
    simp [NATSAgentClient.publish, h, NATSAgentClient.validate_subject, hbad]
  · unfold NATSAgentClient.validate_subject
    cases hval : VALID_SUBJECT_PREFIXES.any (fun p => str_starts_with subject p) <;>
      simp [hval]

/-- C5, witness: a publish to foo.bar.baz on a connected client raises
InvalidSubject, while agent.voice.session.started passes validation. -/
theorem publish_rejects_invalid_subject_witness :
    NATSAgentClient.publish ⟨["nats://localhost:4222"], "test-service", 10, true⟩
        "foo.bar.baz" [] none none "uuid-1" "2025-01-01T00:00:00"
      = Except.error NatsError.invalidSubject ∧
    NATSAgentClient.validate_subject "agent.voice.session.started" = Except.ok () := by
  constructor
  · exact (publish_rejects_invalid_subject
      ⟨["nats://localhost:4222"], "test-service", 10, true⟩
      "foo.bar.baz" [] none none "uuid-1" "2025-01-01T00:00:00" rfl).1 (by decide)
  · exact (publish_rejects_invalid_subject
      ⟨["nats://localhost:4222"], "test-service", 10, true⟩
      "agent.voice.session.started" [] none none "uuid-1" "2025-01-01T00:00:00" rfl).2.mpr
      (by decide)

/- ===================== C6: retrieval failure propagation ===================== -/

/-- C6, amended: the retrieve_context stage does not swallow a retrieval
failure — the source wraps the get_context call in no exception handler, so
an error propagates out of the node unchanged; only a successful query
attaches the (possibly empty) context texts. -/
theorem retrieve_context_propagates (s : AgentState) (e : DbError)
    (rs : List (Nat × String × Int)) :
    retrieve_context_node s (Except.error e) = Except.error e ∧
    retrieve_context_node s (Except.ok rs)
      = Except.ok { s with context := some (rs.map (fun r => r.2.1)) } :=
  ⟨rfl, rfl⟩

/-- C6, counterexample to the claim as stated: on a failing retrieval the
stage does not return normally with an empty context list — it returns the
error itself. -/
theorem retrieve_context_failure_not_empty_context :
    retrieve_context_node ⟨[BaseMessage.human "hi"], "u1", none, none⟩
        (Except.error DbError.queryFailed)
      = Except.error DbError.queryFailed ∧
    retrieve_context_node ⟨[BaseMessage.human "hi"], "u1", none, none⟩
        (Except.error DbError.queryFailed)
      ≠ Except.ok ⟨[BaseMessage.human "hi"], "u1", some [], none⟩ :=
  ⟨rfl, by decide⟩

/- ===================== C10: consume acknowledgement ===================== -/

/-- C10. In the consume loop, a message handed to the handler is negatively
acknowledged exactly when the handler raises or returns the Python value
False; every other return value — None from a handler with no return
statement included — acknowledges the message. -/
theorem consume_step_nack_iff (o : HandlerOutcome) :
    (PulsarAgentClient.consume_step (Except.ok o) = AckResult.nack ↔
      (o = HandlerOutcome.raises ∨ o = HandlerOutcome.returns (PyValue.pybool false))) ∧
    PulsarAgentClient.consume_step (Except.ok (HandlerOutcome.returns PyValue.pynone))
      = AckResult.ack := by
  constructor
  · cases o with
    | raises => simp [PulsarAgentClient.consume_step]
    | returns v =>
        by_cases hv : v = PyValue.pybool false
        · subst hv; simp [PulsarAgentClient.consume_step]
        · simp [PulsarAgentClient.consume_step, hv]
  · rfl

/- ===================== C2: reasoning pass effects ===================== -/

/-- C2, amended: for every reasoning pass whose retrieval stage succeeds, the
generated reply is appended to the state's messages — under the operator.add
reducer the prior messages are also re-accumulated at each node, so the final
channel holds four copies of the user turn followed by the reply — and both
the user turn and the agent turn are persisted via save_conversation; but no
turn_completed conversation event is published: the effect trace of the body
consists of exactly the two saves and contains no durable-bus produce. -/
theorem invoke_reasoning_graph_spec (ctx_rows : List (Nat × String × Int))
    (llm_result : Except LlmError String) (user_id message : String) :
    ∃ response final_state,
      invoke_reasoning_graph (Except.ok ctx_rows) llm_result user_id message
        = Except.ok (response, final_state,
            [BrainAction.saveConv user_id message, BrainAction.saveConv user_id response]) ∧
      final_state.messages
        = [BaseMessage.human message, BaseMessage.human message,
           BaseMessage.human message, BaseMessage.human message,
           BaseMessage.ai response] ∧
      final_state.final_response = some response ∧
      [BrainAction.saveConv user_id message,
        BrainAction.saveConv user_id response].filter BrainAction.isConvEvent = [] := by
  cases llm_result with
  | ok r => exact ⟨r, _, rfl, rfl, rfl, rfl⟩
  | error e => exact ⟨fallback_reply, _, rfl, rfl, rfl, rfl⟩

/-- C2, counterexample to the claim as stated: a complete successful pass at
a concrete input performs exactly the two save_conversation calls; its effect
trace contains no conversation-event publish, so no turn_completed event
keyed by a session id reaches the durable bus. -/
theorem invoke_reasoning_graph_no_conversation_event :
    Except.map (fun r => r.2.2)
        (invoke_reasoning_graph (Except.ok []) (Except.ok "It is 14:05 in Tokyo.")
          "u1" "What is the time in Tokyo?")
      = Except.ok [BrainAction.saveConv "u1" "What is the time in Tokyo?",
                   BrainAction.saveConv "u1" "It is 14:05 in Tokyo."] ∧
    [BrainAction.saveConv "u1" "What is the time in Tokyo?",
      BrainAction.saveConv "u1" "It is 14:05 in Tokyo."].filter BrainAction.isConvEvent = [] :=
  ⟨rfl, rfl⟩

/- ===================== Envelope metadata lemmas ===================== -/

theorem envelope_impl_meta (service_name : String) (data : JDict)
    (trace_id event_type : Option String) (fresh_uuid now : String)
    (h₁ : "trace_id" ∉ data.map Prod.fst)
    (h₂ : "service" ∉ data.map Prod.fst)
    (hf : fresh_uuid ≠ "") :
    (∃ s, s ≠ "" ∧
      lookupKey (create_message_envelope_impl service_name data trace_id event_type fresh_uuid now)
        "trace_id" = some (JVal.str s)) ∧
    lookupKey (create_message_envelope_impl service_name data trace_id event_type fresh_uuid now)
      "service" = some (JVal.str service_name) := by
  have hev : ∀ (base : JDict) (k : String), k ≠ "event_type" →
      lookupKey (match event_type with
        | some e => if e = "" then base else setKey base "event_type" (JVal.str e)
        | none => base) k = lookupKey base k := by
    intro base k hk
    rcases event_type with _ | e
    · rfl
    · by_cases he : e = ""
      · simp [he]
      · simp [he, lookupKey_setKey_ne _ (fun hh => hk hh.symm) _]
  have hshape : ∀ tid : String,
      create_message_envelope_impl service_name data trace_id event_type fresh_uuid now
        = dictUpdate (match event_type with
            | some e => if e = "" then
                [("timestamp", JVal.str (now ++ "Z")), ("trace_id", JVal.str tid),
                 ("service", JVal.str service_name)]
              else setKey
                [("timestamp", JVal.str (now ++ "Z")), ("trace_id", JVal.str tid),
                 ("service", JVal.str service_name)] "event_type" (JVal.str e)
            | none =>
                [("timestamp", JVal.str (now ++ "Z")), ("trace_id", JVal.str tid),
                 ("service", JVal.str service_name)]) data →
      lookupKey (create_message_envelope_impl service_name data trace_id event_type fresh_uuid now)
          "trace_id" = some (JVal.str tid) ∧
      lookupKey (create_message_envelope_impl service_name data trace_id event_type fresh_uuid now)
          "service" = some (JVal.str service_name) := by
    intro tid hsh
    rw [hsh, lookupKey_dictUpdate_of_not_mem _ h₁, lookupKey_dictUpdate_of_not_mem _ h₂,
        hev _ _ (by decide), hev _ _ (by decide)]
    constructor
    · simp [lookupKey]
    · simp [lookupKey]
  rcases trace_id with _ | t
  · obtain ⟨ha, hb⟩ := hshape fresh_uuid rfl
    exact ⟨⟨fresh_uuid, hf, ha⟩, hb⟩
  · by_cases ht : t = ""
    · obtain ⟨ha, hb⟩ := hshape fresh_uuid (by simp [create_message_envelope_impl, ht])
      exact ⟨⟨fresh_uuid, hf, ha⟩, hb⟩
    · obtain ⟨ha, hb⟩ := hshape t (by simp [create_message_envelope_impl, ht])
      exact ⟨⟨t, ht, ha⟩, hb⟩

/- ===================== C7: envelope round trip ===================== -/

/-- C7, amended: serializing and re-parsing the envelope of wrap(p, t, e)
recovers every field of the payload p unconditionally (the payload is merged
last), and recovers the trace id t and event type e provided p does not
itself bind the trace_id or event_type keys and t, e are truthy — the
dict.update merge lets payload fields override the metadata, which is what
the counterexample below exhibits. -/
theorem envelope_roundtrip (c : NATSAgentClient) (data : JDict)
    (t e fresh_uuid now : String)
    (hnd : (data.map Prod.fst).Nodup)
    (ht : t ≠ "") (he : e ≠ "")
    (h₁ : "trace_id" ∉ data.map Prod.fst)
    (h₂ : "event_type" ∉ data.map Prod.fst) :
    (∀ kv ∈ data,
      lookupKey (dumps_then_loads
          (c.create_message_envelope data (some t) (some e) fresh_uuid now)) kv.1
        = some kv.2) ∧
    lookupKey (dumps_then_loads
        (c.create_message_envelope data (some t) (some e) fresh_uuid now)) "trace_id"
      = some (JVal.str t) ∧
    lookupKey (dumps_then_loads
        (c.create_message_envelope data (some t) (some e) fresh_uuid now)) "event_type"
      = some (JVal.str e) := by
  have hshape : c.create_message_envelope data (some t) (some e) fresh_uuid now
      = dictUpdate (setKey
          [("timestamp", JVal.str (now ++ "Z")), ("trace_id", JVal.str t),
           ("service", JVal.str c.service_name)] "event_type" (JVal.str e)) data := by
    simp [NATSAgentClient.create_message_envelope, create_message_envelope_impl, ht, he]
  refine ⟨?_, ?_, ?_⟩
  · intro kv hkv
    obtain ⟨k, v⟩ := kv
    simpa [dumps_then_loads] using lookupKey_dictUpdate_of_mem _ hnd hkv
  · rw [show dumps_then_loads (c.create_message_envelope data (some t) (some e) fresh_uuid now)
        = c.create_message_envelope data (some t) (some e) fresh_uuid now from rfl,
        hshape, lookupKey_dictUpdate_of_not_mem _ h₁]
    simp [setKey, lookupKey]
  · rw [show dumps_then_loads (c.create_message_envelope data (some t) (some e) fresh_uuid now)
        = c.create_message_envelope data (some t) (some e) fresh_uuid now from rfl,
        hshape, lookupKey_dictUpdate_of_not_mem _ h₂]
    simp [setKey, lookupKey]

/-- C7, witness: a concrete payload, trace id and event type survive the
wrap/serialize/parse round trip field by field. -/
theorem envelope_roundtrip_witness :
    lookupKey (dumps_then_loads (NATSAgentClient.create_message_envelope
        ⟨[], "svc", 10, true⟩ [("x", JVal.int 1)] (some "trace-1") (some "turn_completed")
        "uuid-1" "2025-01-01T00:00:00")) "x" = some (JVal.int 1) ∧
    lookupKey (dumps_then_loads (NATSAgentClient.create_message_envelope
        ⟨[], "svc", 10, true⟩ [("x", JVal.int 1)] (some "trace-1") (some "turn_completed")
        "uuid-1" "2025-01-01T00:00:00")) "trace_id" = some (JVal.str "trace-1") ∧
    lookupKey (dumps_then_loads (NATSAgentClient.create_message_envelope
        ⟨[], "svc", 10, true⟩ [("x", JVal.int 1)] (some "trace-1") (some "turn_completed")
        "uuid-1" "2025-01-01T00:00:00")) "event_type" = some (JVal.str "turn_completed") := by
  obtain ⟨ha, hb, hc⟩ := envelope_roundtrip ⟨[], "svc", 10, true⟩ [("x", JVal.int 1)]
    "trace-1" "turn_completed" "uuid-1" "2025-01-01T00:00:00"
    (by decide) (by decide) (by decide) (by decide) (by decide)
  exact ⟨ha ("x", JVal.int 1) (by decide), hb, hc⟩

/-- C7, counterexample to the claim as stated: for the payload that itself
binds trace_id, parsing the wrapped envelope yields the payload's value, not
the trace id passed to wrap — the round trip law fails for such payloads. -/
theorem envelope_roundtrip_trace_collision :
    lookupKey (dumps_then_loads (NATSAgentClient.create_message_envelope
        ⟨[], "svc", 10, true⟩ [("trace_id", JVal.str "payload-trace")]
        (some "envelope-trace") (some "evt") "uuid-1" "now")) "trace_id"
      = some (JVal.str "payload-trace") ∧
    ("payload-trace" : String) ≠ "envelope-trace" :=
  ⟨by decide, by decide⟩

/- ===================== C8: envelope trace_id and service ===================== -/

/-- C8, amended: every envelope either client emits carries a non-empty
trace_id and a service field equal to the producing client's service name,
for every payload that does not itself bind the trace_id or service keys;
because the payload is merged over the metadata, a payload binding those keys
overrides them (see the counterexample). -/
theorem emitted_envelope_trace_and_service
    (nc : NATSAgentClient) (pc : PulsarAgentClient) (data : JDict)
    (trace_id event_type : Option String) (fresh_uuid now : String)
    (h₁ : "trace_id" ∉ data.map Prod.fst) (h₂ : "service" ∉ data.map Prod.fst)
    (hf : fresh_uuid ≠ "") :
    (∃ s, s ≠ "" ∧
      lookupKey (nc.create_message_envelope data trace_id event_type fresh_uuid now)
        "trace_id" = some (JVal.str s)) ∧
    lookupKey (nc.create_message_envelope data trace_id event_type fresh_uuid now)
      "service" = some (JVal.str nc.service_name) ∧
    (∃ s, s ≠ "" ∧
      lookupKey (pc.create_message_envelope data trace_id event_type fresh_uuid now)
        "trace_id" = some (JVal.str s)) ∧
    lookupKey (pc.create_message_envelope data trace_id event_type fresh_uuid now)
      "service" = some (JVal.str pc.service_name) := by
  obtain ⟨ha, hb⟩ := envelope_impl_meta nc.service_name data trace_id event_type
    fresh_uuid now h₁ h₂ hf
  obtain ⟨hc, hd⟩ := envelope_impl_meta pc.service_name data trace_id event_type
    fresh_uuid now h₁ h₂ hf
  exact ⟨ha, hb, hc, hd⟩

/-- C8, witness: concrete envelopes of both clients carry a non-empty
trace_id and the producing service name. -/
theorem emitted_envelope_trace_and_service_witness :
    (∃ s, s ≠ "" ∧
      lookupKey (NATSAgentClient.create_message_envelope ⟨[], "svc-a", 10, true⟩
        [("x", JVal.int 1)] none (some "turn_completed") "uuid-1" "now")
        "trace_id" = some (JVal.str s)) ∧
    lookupKey (NATSAgentClient.create_message_envelope ⟨[], "svc-a", 10, true⟩
        [("x", JVal.int 1)] none (some "turn_completed") "uuid-1" "now")
      "service" = some (JVal.str "svc-a") ∧
    (∃ s, s ≠ "" ∧
      lookupKey (PulsarAgentClient.create_message_envelope
        ⟨"pulsar://localhost:6650", "svc-b", 30, true, []⟩
        [("x", JVal.int 1)] none (some "turn_completed") "uuid-1" "now")
        "trace_id" = some (JVal.str s)) ∧
    lookupKey (PulsarAgentClient.create_message_envelope
        ⟨"pulsar://localhost:6650", "svc-b", 30, true, []⟩
        [("x", JVal.int 1)] none (some "turn_completed") "uuid-1" "now")
      "service" = some (JVal.str "svc-b") :=
  emitted_envelope_trace_and_service ⟨[], "svc-a", 10, true⟩
    ⟨"pulsar://localhost:6650", "svc-b", 30, true, []⟩
    [("x", JVal.int 1)] none (some "turn_completed") "uuid-1" "now"
    (by decide) (by decide) (by decide)

/-- C8, counterexample to the claim as stated: a payload binding trace_id to
the empty string yields an emitted envelope with an empty trace_id, and a
payload binding service makes the envelope carry a name other than the
producing client's — the invariant does not hold for arbitrary payloads. -/
theorem envelope_metadata_override :
    lookupKey (NATSAgentClient.create_message_envelope ⟨[], "svc", 10, true⟩
        [("trace_id", JVal.str "")] none none "uuid-1" "now") "trace_id"
      = some (JVal.str "") ∧
    lookupKey (PulsarAgentClient.create_message_envelope
        ⟨"pulsar://localhost:6650", "svc", 30, true, []⟩
        [("service", JVal.str "impostor")] none none "uuid-1" "now") "service"
      = some (JVal.str "impostor") ∧
    ("impostor" : String) ≠ "svc" :=
  ⟨by decide, by decide, by decide⟩

/- ===================== C9: bounded ordered retrieval ===================== -/

/-- C9. get_context returns at most top_k entries, ordered ascending by the
configured distance metric (the squared L2 key induces the same order as the
L2 distance of the source), and when the user has at most top_k stored rows
every one of them appears in the result. -/
theorem get_context_spec (db : Database) (user_id query_text : String) (top_k : Nat) :
    (get_context db user_id query_text top_k).length ≤ top_k ∧
    List.Sorted (fun x y : Nat × String × Int => x.2.2 ≤ y.2.2)
      (get_context db user_id query_text top_k) ∧
    ((db.table.filter (fun c => c.user_id = user_id)).length ≤ top_k →
      ∀ c ∈ db.table.filter (fun c => c.user_id = user_id),
        (c.id, c.text, l2_distance_sq c.embedding (db.embedding_model query_text))
          ∈ get_context db user_id query_text top_k) := by
  have hgc : get_context db user_id query_text top_k
      = (((db.table.filter (fun c => c.user_id = user_id)).insertionSort
            (fun a b => l2_distance_sq a.embedding (db.embedding_model query_text)
              ≤ l2_distance_sq b.embedding (db.embedding_model query_text))).take top_k).map
          (fun c => (c.id, c.text, l2_distance_sq c.embedding (db.embedding_model query_text))) :=
    rfl
  haveI hto : IsTotal Conversation (fun a b =>
      l2_distance_sq a.embedding (db.embedding_model query_text)
        ≤ l2_distance_sq b.embedding (db.embedding_model query_text)) :=
    ⟨fun a b => le_total _ _⟩
  haveI htr : IsTrans Conversation (fun a b =>
      l2_distance_sq a.embedding (db.embedding_model query_text)
        ≤ l2_distance_sq b.embedding (db.embedding_model query_text)) :=
    ⟨fun a b c hab hbc => le_trans hab hbc⟩
  refine ⟨?_, ?_, ?_⟩
  · rw [hgc]
    simp only [List.length_map, List.length_take]
    exact min_le_left _ _
  · rw [hgc]
    have hsorted := List.sorted_insertionSort
      (r := fun a b => l2_distance_sq a.embedding (db.embedding_model query_text)
        ≤ l2_distance_sq b.embedding (db.embedding_model query_text))
      (db.table.filter (fun c => c.user_id = user_id))
    have htake := List.Pairwise.sublist (List.take_sublist top_k _) hsorted
    exact htake.map _ (fun a b hab => hab)
  · intro hlen c hc
    rw [hgc]
    have hperm := List.perm_insertionSort
      (fun a b => l2_distance_sq a.embedding (db.embedding_model query_text)
        ≤ l2_distance_sq b.embedding (db.embedding_model query_text))
      (db.table.filter (fun c => c.user_id = user_id))
    have hlen2 : ((db.table.filter (fun c => c.user_id = user_id)).insertionSort
        (fun a b => l2_distance_sq a.embedding (db.embedding_model query_text)
          ≤ l2_distance_sq b.embedding (db.embedding_model query_text))).length ≤ top_k := by
      rw [hperm.length_eq]; exact hlen
    rw [List.take_of_length_le hlen2]
    exact List.mem_map_of_mem _ (hperm.mem_iff.mpr hc)

/-- C9, witness: on a store holding a single turn of the user, asking for the
top 5 returns that turn, in a sorted list of at most 5 entries. -/
theorem get_context_spec_witness :
    (get_context ⟨[⟨1, "u1", "hello", [1], 0⟩], 2, 1, fun _ => [0]⟩ "u1" "hi" 5).length ≤ 5 ∧
    List.Sorted (fun x y : Nat × String × Int => x.2.2 ≤ y.2.2)
      (get_context ⟨[⟨1, "u1", "hello", [1], 0⟩], 2, 1, fun _ => [0]⟩ "u1" "hi" 5) ∧
    (1, "hello", l2_distance_sq [1] [0])
      ∈ get_context ⟨[⟨1, "u1", "hello", [1], 0⟩], 2, 1, fun _ => [0]⟩ "u1" "hi" 5 := by
  obtain ⟨h₁, h₂, h₃⟩ :=
    get_context_spec ⟨[⟨1, "u1", "hello", [1], 0⟩], 2, 1, fun _ => [0]⟩ "u1" "hi" 5
  exact ⟨h₁, h₂, h₃ (by decide) ⟨1, "u1", "hello", [1], 0⟩ (by decide)⟩

/- ===================== C1: per-user isolation ===================== -/

/-- C1, amended: every row returned by get_context comes from a stored turn
of the requested user — that query filters by user_id unconditionally, for
the empty user id as much as for any other (the first conjunct carries no
truthiness hypothesis); find_similar_conversations returns only the
requested user's turns whenever the supplied user id is truthy (non-empty).
When the user id is empty or omitted the source skips that filter (guard
`if user_id:`), which is the code path of the counterexample. -/
theorem retrieval_user_isolation
    (db : Database) (u query_text : String) (k : Nat)
    (cosine_distance : List Int → List Int → Int)
    (table : List SdkConversation) (query_embedding : List Int) (limit : Nat) :
    (∀ x ∈ get_context db u query_text k,
        ∃ c, c ∈ db.table ∧ c.user_id = u ∧ x.1 = c.id ∧ x.2.1 = c.text) ∧
    (u ≠ "" →
      ∀ s ∈ find_similar_conversations cosine_distance table query_embedding limit (some u),
        s.user_id = u) := by
  constructor
  · intro x hx
    have hgc : get_context db u query_text k
        = (((db.table.filter (fun c => c.user_id = u)).insertionSort
              (fun a b => l2_distance_sq a.embedding (db.embedding_model query_text)
                ≤ l2_distance_sq b.embedding (db.embedding_model query_text))).take k).map
            (fun c => (c.id, c.text, l2_distance_sq c.embedding (db.embedding_model query_text))) :=
      rfl
    rw [hgc] at hx
    obtain ⟨c, hc, hfx⟩ := List.mem_map.mp hx
    have hc₂ := List.Sublist.mem hc (List.take_sublist _ _)
    have hc₃ := (List.perm_insertionSort _ _).mem_iff.mp hc₂
    obtain ⟨hmem, huid⟩ := List.mem_filter.mp hc₃
    subst hfx
    exact ⟨c, hmem, by simpa using huid, rfl, rfl⟩
  · intro hu s hs
    have hfs : find_similar_conversations cosine_distance table query_embedding limit (some u)
        = ((table.filter (fun c => c.user_id = u)).insertionSort
            (fun a b => cosine_distance a.embedding query_embedding
              ≤ cosine_distance b.embedding query_embedding)).take limit := by
      simp [find_similar_conversations, hu]
    rw [hfs] at hs
    have hs₂ := List.Sublist.mem hs (List.take_sublist _ _)
    have hs₃ := (List.perm_insertionSort _ _).mem_iff.mp hs₂
    simpa using (List.mem_filter.mp hs₃).2

/-- C1, witness: with a non-empty user id, a concrete retrieval from each
store returns only rows of that user; and at the empty user id, get_context
on a table holding only a turn of user alice returns nothing — its filter
applies there too, unlike the truthiness-guarded filter of
find_similar_conversations. -/
theorem retrieval_user_isolation_witness :
    (∃ c, c ∈ ([⟨1, "u1", "hello", [1], 0⟩] : List Conversation) ∧ c.user_id = "u1" ∧
        (1 : Nat) = c.id ∧ "hello" = c.text) ∧
    SdkConversation.user_id ⟨1, "u1", "question", "answer", [1]⟩ = "u1" ∧
    get_context ⟨[⟨1, "alice", "hi", [1], 0⟩], 2, 1, fun _ => [0]⟩ "" "hi" 5 = [] := by
  obtain ⟨h₁, h₂⟩ := retrieval_user_isolation
    ⟨[⟨1, "u1", "hello", [1], 0⟩], 2, 1, fun _ => [0]⟩ "u1" "hi" 5
    (fun _ _ => 0) [⟨1, "u1", "question", "answer", [1]⟩] [0] 5
  refine ⟨h₁ (1, "hello", l2_distance_sq [1] [0]) (by decide),
          h₂ (by decide) ⟨1, "u1", "question", "answer", [1]⟩ (by decide), ?_⟩
  have h₃ := (retrieval_user_isolation
    ⟨[⟨1, "alice", "hi", [1], 0⟩], 2, 1, fun _ => [0]⟩ "" "hi" 5
    (fun _ _ => 0) [] [] 0).1
  cases hres : get_context ⟨[⟨1, "alice", "hi", [1], 0⟩], 2, 1, fun _ => [0]⟩ "" "hi" 5 with
  | nil => rfl
  | cons x xs =>
      exfalso
      obtain ⟨c, hc, hcu, _, _⟩ := h₃ x (by rw [hres]; exact List.mem_cons_self x xs)
      rw [List.mem_singleton] at hc
      subst hc
      exact absurd hcu (by decide)

/-- C1, counterexample to the claim as stated: the store does expose a
cross-user code path — calling find_similar_conversations with the falsy
user id "" skips the user filter (guard `if user_id:`), and the retrieval
returns a turn whose user_id is "alice", not the requested "". -/
theorem find_similar_conversations_cross_user :
    (find_similar_conversations (fun _ _ => 0)
        [⟨1, "alice", "hi", "hello back", [1]⟩] [1] 5 (some "")).map
      SdkConversation.user_id = ["alice"] ∧
    ("alice" : String) ≠ "" :=
  ⟨by decide, by decide⟩
